import Mathlib

/-!
Verification development for the ACC laptime tracker described in the
repository (content/post/$3-acc-laptime-tracker.md).  The data model
(AccGameState, Session, Lap, LapSector) and the shared-memory reader
(ReadSharedMemoryStruct) are embedded from the Go code shown in the post.
The session/lap/sector rollover rules are embedded from the prose rules of
the post; details the post leaves open (identifiers, timestamps, event
payloads, the discard of a never-completed lap at a session restart) are
modelled from the design spec and are marked as such.
-/

/-- One sample of live telemetry, embedded from the Go struct AccGameState.
The float32 field Clock and the two shared-memory version strings are
carried by the Go struct but never read by the tracking logic; they are
omitted here.  Machine int32 fields are modelled as Int (no arithmetic
performed by the tracker can overflow them in the scenarios claimed). -/
structure AccGameState where
  status : String
  sessionType : String
  track : String
  carModel : String
  sectorCount : Int
  numberOfCars : Int
  completedLaps : Int
  bestLapTime : Int
  previousLapTime : Int
  currentLapTime : Int
  currentSectorIndex : Int
  previousSectorTime : Int
  isValid : Bool
  isInPitLane : Bool
  isInPit : Bool
deriving Repr, DecidableEq

/-- Embedded from the Go struct LapSector. -/
structure LapSector where
  sectorNumber : Int
  sectorTime : Int
  isActive : Bool
deriving Repr, DecidableEq

/-- Embedded from the Go struct Lap. -/
structure Lap where
  lapNumber : Int
  lapTime : Int
  lapDelta : Int
  isValid : Bool
  isActive : Bool
  lapSectors : List LapSector
deriving Repr, DecidableEq

/-- Embedded from the Go struct Session. -/
structure Session where
  id : String
  startTime : Int
  sessionType : String
  track : String
  carModel : String
  numberOfSectors : Int
  completedLaps : Int
  bestLap : Int
  isActive : Bool
  player : String
  laps : List Lap
deriving Repr, DecidableEq

/-- State of the tracking service layer.  The post says the service
maintains the current session and tracks the latest lap and sector through
it.  Modelled from the spec: the previousLapTime of the last snapshot seen
is kept so that a session rollover can finalize the old lap with the value
observed before the restart (spec rule 2). -/
structure SessionTracker where
  currentSession : Option Session
  lastPreviousLapTime : Int
deriving Repr, DecidableEq

/-- Modelled from the spec: the closed tagged-variant event stream emitted
by the tracker toward the persistence worker. -/
inductive TrackerEvent where
  | sessionStarted (sess : Session)
  | sessionEnded (sess : Session)
  | lapFinalized (lap : Lap)
  | sectorFinalized (sector : LapSector)
  | liveUpdate (sess : Session)
deriving Repr, DecidableEq

/-- Split a list into its leading part and its last element. -/
def splitLast {α : Type} : List α → Option (List α × α)
  | [] => none
  | [a] => some ([], a)
  | a :: b :: rest =>
    match splitLast (b :: rest) with
    | some (init, last) => some (a :: init, last)
    | none => none

/-- Apply a function to the last element of a list. -/
def mapLast {α : Type} (f : α → α) : List α → List α
  | [] => []
  | [a] => [f a]
  | a :: b :: rest => a :: mapLast f (b :: rest)

/-- Modelled from the spec: a freshly started sector (sector rollover and
lap start create one with the relevant sector number, live timing zeroed). -/
def startSector (n : Int) : LapSector :=
  { sectorNumber := n, sectorTime := 0, isActive := true }

/-- Modelled from the spec: a freshly started lap with its first active
sector at sector number 0.  The validity of the snapshot that opens the lap
is propagated onto the lap. -/
def startLap (n : Int) (s : AccGameState) : Lap :=
  { lapNumber := n, lapTime := 0, lapDelta := 0, isValid := s.isValid
    isActive := true, lapSectors := [startSector 0] }

/-- Completing a sector, embedded from the prose rule of the post: the
sector time is set from the given value and the sector becomes inactive. -/
def completeSector (time : Int) (sec : LapSector) : LapSector :=
  { sec with sectorTime := time, isActive := false }

/-- Completing a lap, embedded from the prose rule of the post: the lap
time is set to the given PreviousLapTime value, and the sector time of the
latest sector is ALSO set to that same PreviousLapTime value (the post
states this explicitly), both becoming inactive. -/
def completeLap (time : Int) (lap : Lap) : Lap :=
  { lap with
    lapTime := time
    isActive := false
    lapSectors := mapLast (completeSector time) lap.lapSectors }

/-- Modelled from the spec (rule 1): a new Session created from the
metadata of the snapshot, with a first active lap (lap number 1) holding a
first active sector (sector number 0).  The identifier and start time are
supplied externally. -/
def newSession (s : AccGameState) (now : Int) (freshId : String) : Session :=
  { id := freshId, startTime := now, sessionType := s.sessionType
    track := s.track, carModel := s.carModel, numberOfSectors := s.sectorCount
    completedLaps := s.completedLaps, bestLap := s.bestLapTime
    isActive := true, player := "", laps := [startLap 1 s] }

/-- One tracker step.  The rollover rules are embedded from the prose of
the post, evaluated in the priority order session rollover, lap rollover,
sector rollover, live update; the spec supplies the rule priority, the
event stream, and (as a documented limitation) the discard of a lap that
never completed when its session is restarted. -/
def SessionTracker.update (t : SessionTracker) (s : AccGameState)
    (now : Int) (freshId : String) : SessionTracker × List TrackerEvent :=
  match t.currentSession with
  | none =>
    let fresh := newSession s now freshId
    ({ currentSession := some fresh, lastPreviousLapTime := s.previousLapTime },
     [.sessionStarted fresh])
  | some sess =>
    if s.completedLaps < sess.completedLaps then
      -- session rollover: the lap counter decreased, the simulation restarted
      let fresh := newSession s now freshId
      if sess.laps.all (fun l => l.isActive) then
        -- no lap of the old session ever completed: the partial lap and its
        -- sectors are discarded rather than persisted (documented limitation)
        let ended := { sess with isActive := false, laps := [] }
        ({ currentSession := some fresh, lastPreviousLapTime := s.previousLapTime },
         [.sessionEnded ended, .sessionStarted fresh])
      else
        match splitLast sess.laps with
        | none =>
          let ended := { sess with isActive := false }
          ({ currentSession := some fresh, lastPreviousLapTime := s.previousLapTime },
           [.sessionEnded ended, .sessionStarted fresh])
        | some (initLaps, al) =>
          -- the old lap is completed with the previousLapTime of the LAST
          -- snapshot observed before the restart, not of the new snapshot
          let finLap := completeLap t.lastPreviousLapTime al
          let ended := { sess with isActive := false, laps := initLaps ++ [finLap] }
          let secEvents :=
            match splitLast al.lapSectors with
            | none => []
            | some (_, sec) =>
              [TrackerEvent.sectorFinalized (completeSector t.lastPreviousLapTime sec)]
          ({ currentSession := some fresh, lastPreviousLapTime := s.previousLapTime },
           secEvents ++ [.lapFinalized finLap, .sessionEnded ended, .sessionStarted fresh])
    else if sess.completedLaps < s.completedLaps then
      -- lap rollover
      let newL := startLap (s.completedLaps + 1) s
      match splitLast sess.laps with
      | none =>
        let sess1 := { sess with completedLaps := s.completedLaps, laps := [newL] }
        ({ currentSession := some sess1, lastPreviousLapTime := s.previousLapTime }, [])
      | some (initLaps, al) =>
        let finLap := completeLap s.previousLapTime al
        let secEvents :=
          match splitLast al.lapSectors with
          | none => []
          | some (_, sec) =>
            [TrackerEvent.sectorFinalized (completeSector s.previousLapTime sec)]
        let sess1 := { sess with
                       completedLaps := s.completedLaps
                       laps := initLaps ++ [finLap, newL] }
        ({ currentSession := some sess1, lastPreviousLapTime := s.previousLapTime },
         secEvents ++ [.lapFinalized finLap])
    else
      match splitLast sess.laps with
      | none =>
        let sess1 := { sess with bestLap := s.bestLapTime }
        ({ currentSession := some sess1, lastPreviousLapTime := s.previousLapTime },
         [.liveUpdate sess1])
      | some (initLaps, al) =>
        match splitLast al.lapSectors with
        | none =>
          let al1 := { al with
                       lapTime := s.currentLapTime
                       isValid := al.isValid && s.isValid }
          let sess1 := { sess with bestLap := s.bestLapTime, laps := initLaps ++ [al1] }
          ({ currentSession := some sess1, lastPreviousLapTime := s.previousLapTime },
           [.liveUpdate sess1])
        | some (initSecs, sec) =>
          if sec.sectorNumber ≠ s.currentSectorIndex then
            -- sector rollover: the sector index differs from the tracked one
            let finSec := completeSector s.previousSectorTime sec
            let newSec := startSector s.currentSectorIndex
            let al1 := { al with lapSectors := initSecs ++ [finSec, newSec] }
            let sess1 := { sess with laps := initLaps ++ [al1] }
            ({ currentSession := some sess1, lastPreviousLapTime := s.previousLapTime },
             [.sectorFinalized finSec])
          else
            -- no rollover: refresh the live fields of the active lap
            let al1 := { al with
                         lapTime := s.currentLapTime
                         isValid := al.isValid && s.isValid }
            let sess1 := { sess with bestLap := s.bestLapTime, laps := initLaps ++ [al1] }
            ({ currentSession := some sess1, lastPreviousLapTime := s.previousLapTime },
             [.liveUpdate sess1])

/-- The tracker before any snapshot was seen: no current session. -/
def initialTracker : SessionTracker :=
  { currentSession := none, lastPreviousLapTime := 0 }

/-- One poll tick: the sampled snapshot together with the wall-clock value
and the fresh identifier the tracker would consume at that tick. -/
structure TickInput where
  snap : AccGameState
  now : Int
  freshId : String
deriving Repr, DecidableEq

/-- Run the tracker over an ordered sequence of ticks, concatenating the
emitted events in order. -/
def runTracker (t : SessionTracker) : List TickInput → SessionTracker × List TrackerEvent
  | [] => (t, [])
  | x :: xs =>
    let step := SessionTracker.update t x.snap x.now x.freshId
    let rest := runTracker step.1 xs
    (rest.1, step.2 ++ rest.2)

/-! Helper lemmas about splitLast and mapLast. -/

theorem splitLast_concat {α : Type} : ∀ (l : List α) (a : α), splitLast (l ++ [a]) = some (l, a)
  | [], _ => rfl
  | [_], _ => rfl
  | x :: y :: ys, a => by
    have ih := splitLast_concat (y :: ys) a
    simp only [List.cons_append] at ih ⊢
    simp only [splitLast, ih]

theorem mapLast_concat {α : Type} (f : α → α) :
    ∀ (l : List α) (a : α), mapLast f (l ++ [a]) = l ++ [f a]
  | [], _ => rfl
  | [_], _ => rfl
  | x :: y :: ys, a => by
    have ih := mapLast_concat f (y :: ys) a
    simp only [List.cons_append] at ih ⊢
    simp only [mapLast, ih]

theorem splitLast_eq_some {α : Type} :
    ∀ {l init : List α} {a : α}, splitLast l = some (init, a) → l = init ++ [a]
  | [], _, _, h => by simp [splitLast] at h
  | [x], _, _, h => by
    simp only [splitLast, Option.some.injEq, Prod.mk.injEq] at h
    simp [← h.1, ← h.2]
  | x :: y :: ys, init, a, h => by
    simp only [splitLast] at h
    cases hrec : splitLast (y :: ys) with
    | none => rw [hrec] at h; exact absurd h (by simp)
    | some p =>
      rw [hrec] at h
      obtain ⟨i2, l2⟩ := p
      simp only [Option.some.injEq, Prod.mk.injEq] at h
      have := splitLast_eq_some hrec
      rw [← h.1, ← h.2, this]
      simp

/-! Branch characterizations of one tracker step.  These unfold the update
function on each of its rules and are shared by the claim theorems. -/

theorem update_noSession (t : SessionTracker) (s : AccGameState) (now : Int) (freshId : String)
    (hcur : t.currentSession = none) :
    t.update s now freshId =
      ({ currentSession := some (newSession s now freshId)
         lastPreviousLapTime := s.previousLapTime },
       [TrackerEvent.sessionStarted (newSession s now freshId)]) := by
  unfold SessionTracker.update
  rw [hcur]

theorem update_sessionRollover_discard (t : SessionTracker) (s : AccGameState)
    (now : Int) (freshId : String) (sess : Session)
    (hcur : t.currentSession = some sess)
    (hroll : s.completedLaps < sess.completedLaps)
    (hall : sess.laps.all (fun l => l.isActive) = true) :
    t.update s now freshId =
      ({ currentSession := some (newSession s now freshId)
         lastPreviousLapTime := s.previousLapTime },
       [TrackerEvent.sessionEnded { sess with isActive := false, laps := [] },
        TrackerEvent.sessionStarted (newSession s now freshId)]) := by
  unfold SessionTracker.update
  rw [hcur]
  simp only [if_pos hroll, hall, if_pos]

theorem update_sessionRollover (t : SessionTracker) (s : AccGameState)
    (now : Int) (freshId : String) (sess : Session)
    (ls : List Lap) (al : Lap) (ss : List LapSector) (sec : LapSector)
    (hcur : t.currentSession = some sess)
    (hlaps : sess.laps = ls ++ [al])
    (hsecs : al.lapSectors = ss ++ [sec])
    (hroll : s.completedLaps < sess.completedLaps)
    (hall : sess.laps.all (fun l => l.isActive) = false) :
    t.update s now freshId =
      ({ currentSession := some (newSession s now freshId)
         lastPreviousLapTime := s.previousLapTime },
       [TrackerEvent.sectorFinalized (completeSector t.lastPreviousLapTime sec),
        TrackerEvent.lapFinalized (completeLap t.lastPreviousLapTime al),
        TrackerEvent.sessionEnded { sess with
          isActive := false
          laps := ls ++ [completeLap t.lastPreviousLapTime al] },
        TrackerEvent.sessionStarted (newSession s now freshId)]) := by
  unfold SessionTracker.update
  rw [hcur]
  rw [hlaps] at hall
  simp only [if_pos hroll, hlaps, hall, Bool.false_eq_true, if_false, hsecs,
    splitLast_concat, List.cons_append, List.nil_append]

theorem update_lapRollover (t : SessionTracker) (s : AccGameState)
    (now : Int) (freshId : String) (sess : Session)
    (ls : List Lap) (al : Lap) (ss : List LapSector) (sec : LapSector)
    (hcur : t.currentSession = some sess)
    (hlaps : sess.laps = ls ++ [al])
    (hsecs : al.lapSectors = ss ++ [sec])
    (hnoSess : ¬ s.completedLaps < sess.completedLaps)
    (hroll : sess.completedLaps < s.completedLaps) :
    t.update s now freshId =
      ({ currentSession := some { sess with
           completedLaps := s.completedLaps
           laps := ls ++ [completeLap s.previousLapTime al,
                          startLap (s.completedLaps + 1) s] }
         lastPreviousLapTime := s.previousLapTime },
       [TrackerEvent.sectorFinalized (completeSector s.previousLapTime sec),
        TrackerEvent.lapFinalized (completeLap s.previousLapTime al)]) := by
  unfold SessionTracker.update
  rw [hcur]
  simp only [if_neg hnoSess, if_pos hroll, hlaps, hsecs, splitLast_concat,
    List.cons_append, List.nil_append]

theorem update_sectorRollover (t : SessionTracker) (s : AccGameState)
    (now : Int) (freshId : String) (sess : Session)
    (ls : List Lap) (al : Lap) (ss : List LapSector) (sec : LapSector)
    (hcur : t.currentSession = some sess)
    (hlaps : sess.laps = ls ++ [al])
    (hsecs : al.lapSectors = ss ++ [sec])
    (hnoSess : ¬ s.completedLaps < sess.completedLaps)
    (hnoLap : ¬ sess.completedLaps < s.completedLaps)
    (hdiff : sec.sectorNumber ≠ s.currentSectorIndex) :
    t.update s now freshId =
      ({ currentSession := some { sess with
           laps := ls ++ [{ al with
             lapSectors := ss ++ [completeSector s.previousSectorTime sec,
                                  startSector s.currentSectorIndex] }] }
         lastPreviousLapTime := s.previousLapTime },
       [TrackerEvent.sectorFinalized (completeSector s.previousSectorTime sec)]) := by
  unfold SessionTracker.update
  rw [hcur]
  simp only [if_neg hnoSess, if_neg hnoLap, hlaps, hsecs, splitLast_concat,
    if_pos hdiff, List.cons_append, List.nil_append]

theorem update_liveUpdate (t : SessionTracker) (s : AccGameState)
    (now : Int) (freshId : String) (sess : Session)
    (ls : List Lap) (al : Lap) (ss : List LapSector) (sec : LapSector)
    (hcur : t.currentSession = some sess)
    (hlaps : sess.laps = ls ++ [al])
    (hsecs : al.lapSectors = ss ++ [sec])
    (hnoSess : ¬ s.completedLaps < sess.completedLaps)
    (hnoLap : ¬ sess.completedLaps < s.completedLaps)
    (hsame : sec.sectorNumber = s.currentSectorIndex) :
    t.update s now freshId =
      ({ currentSession := some { sess with
           bestLap := s.bestLapTime
           laps := ls ++ [{ al with
             lapTime := s.currentLapTime
             isValid := al.isValid && s.isValid }] }
         lastPreviousLapTime := s.previousLapTime },
       [TrackerEvent.liveUpdate { sess with
          bestLap := s.bestLapTime
          laps := ls ++ [{ al with
            lapTime := s.currentLapTime
            isValid := al.isValid && s.isValid }] }]) := by
  unfold SessionTracker.update
  rw [hcur]
  simp only [if_neg hnoSess, if_neg hnoLap, hlaps, hsecs, splitLast_concat,
    hsame, ne_eq, not_true_eq_false, if_false, List.cons_append, List.nil_append]

/-! Concrete fixtures used by witnesses and counterexamples. -/

/-- A representative initial snapshot (completedLaps 0, sector index 0). -/
def baseSnap : AccGameState :=
  { status := "LIVE", sessionType := "PRACTICE", track := "monza", carModel := "bmw_m4_gt3"
    sectorCount := 3, numberOfCars := 1, completedLaps := 0, bestLapTime := 0
    previousLapTime := 0, currentLapTime := 0, currentSectorIndex := 0
    previousSectorTime := 0, isValid := true, isInPitLane := false, isInPit := false }

/-- A session freshly created from baseSnap. -/
def c1Session : Session := newSession baseSnap 10 "s1"

/-- Tracker holding that fresh session. -/
def c1Tracker : SessionTracker :=
  { currentSession := some c1Session, lastPreviousLapTime := 0 }

/-- Snapshot completing lap 1: previousLapTime and previousSectorTime differ. -/
def c1Snap : AccGameState :=
  { baseSnap with completedLaps := 1, previousLapTime := 75000, previousSectorTime := 30000 }

/-- Claim C1, counterexample: at a lap rollover the tracker finalizes the
active sector with the PreviousLapTime value of the snapshot, not with its
previousSectorTime as the claim states; on a snapshot with
previousLapTime 75000 and previousSectorTime 30000 the finalized sector
carries 75000. -/
theorem c1_counterexample :
    ∃ ev ∈ (SessionTracker.update c1Tracker c1Snap 11 "s2").2,
      ∃ sec, ev = TrackerEvent.sectorFinalized sec ∧
        sec.isActive = false ∧
        sec.sectorTime ≠ c1Snap.previousSectorTime ∧
        sec.sectorTime = c1Snap.previousLapTime := by
  refine ⟨TrackerEvent.sectorFinalized { sectorNumber := 0, sectorTime := 75000, isActive := false },
    by decide, { sectorNumber := 0, sectorTime := 75000, isActive := false }, rfl, rfl,
    by decide, by decide⟩

/-- Claim C1 (amended): for every tracked state with a current session and
every snapshot with strictly larger completedLaps (and no session rollover
firing first), the update finalizes the active lap with
lapTime = s.previousLapTime, finalizes its active sector setting the sector
time ALSO to s.previousLapTime (the source completes a lap by writing
PreviousLapTime into both), marks both inactive, and starts a new active
lap with lapNumber = s.completedLaps + 1 holding a new active sector with
sectorNumber 0. -/
theorem c1_lap_rollover (t : SessionTracker) (s : AccGameState) (now : Int) (freshId : String)
    (sess : Session) (ls : List Lap) (al : Lap) (ss : List LapSector) (sec : LapSector)
    (hcur : t.currentSession = some sess)
    (hlaps : sess.laps = ls ++ [al]) (hact : al.isActive = true)
    (hsecs : al.lapSectors = ss ++ [sec]) (hsact : sec.isActive = true)
    (hnoSess : ¬ s.completedLaps < sess.completedLaps)
    (hroll : sess.completedLaps < s.completedLaps) :
    (t.update s now freshId).1.currentSession =
      some { sess with
        completedLaps := s.completedLaps
        laps := ls ++ [completeLap s.previousLapTime al,
                       startLap (s.completedLaps + 1) s] } ∧
    (t.update s now freshId).2 =
      [TrackerEvent.sectorFinalized (completeSector s.previousLapTime sec),
       TrackerEvent.lapFinalized (completeLap s.previousLapTime al)] ∧
    (completeLap s.previousLapTime al).lapTime = s.previousLapTime ∧
    (completeLap s.previousLapTime al).isActive = false ∧
    (completeSector s.previousLapTime sec).sectorTime = s.previousLapTime ∧
    (completeSector s.previousLapTime sec).isActive = false ∧
    (startLap (s.completedLaps + 1) s).lapNumber = s.completedLaps + 1 ∧
    (startLap (s.completedLaps + 1) s).isActive = true ∧
    (startLap (s.completedLaps + 1) s).lapSectors = [startSector 0] ∧
    (startSector 0).sectorNumber = 0 ∧ (startSector 0).isActive = true := by
  have h := update_lapRollover t s now freshId sess ls al ss sec hcur hlaps hsecs hnoSess hroll
  rw [h]
  exact ⟨rfl, rfl, rfl, rfl, rfl, rfl, rfl, rfl, rfl, rfl, rfl⟩

/-- Claim C1, witness: the amended lap-rollover theorem applied to the
concrete fresh session and the concrete snapshot with completedLaps 1. -/
theorem c1_witness :
    c1Tracker.currentSession = some c1Session ∧
    (¬ c1Snap.completedLaps < c1Session.completedLaps) ∧
    c1Session.completedLaps < c1Snap.completedLaps ∧
    (SessionTracker.update c1Tracker c1Snap 11 "s2").1.currentSession =
      some { c1Session with
        completedLaps := c1Snap.completedLaps
        laps := [completeLap c1Snap.previousLapTime (startLap 1 baseSnap),
                 startLap (c1Snap.completedLaps + 1) c1Snap] } :=
  ⟨rfl, by decide, by decide,
    by
      have h := c1_lap_rollover c1Tracker c1Snap 11 "s2" c1Session
        [] (startLap 1 baseSnap) [] (startSector 0)
        rfl rfl rfl rfl rfl (by decide) (by decide)
      simpa using h.1⟩

/-! Fixtures for the session-rollover claims. -/

/-- First snapshot of the C3 scenario. -/
def c3s1 : AccGameState := baseSnap

/-- Second snapshot: completes lap 1 with previousLapTime 80000 while its
previousSectorTime is 111, so the two are distinguishable. -/
def c3s2 : AccGameState :=
  { baseSnap with completedLaps := 1, previousLapTime := 80000, previousSectorTime := 111 }

/-- Third snapshot: the lap counter drops back to 0, a session restart.
Its own previousLapTime and previousSectorTime are 999 and 555 so that any
use of the new snapshot values would be visible. -/
def c3s3 : AccGameState :=
  { baseSnap with completedLaps := 0, previousLapTime := 999, previousSectorTime := 555 }

/-- Claim C3, counterexample: at a session rollover the tracker finalizes
the old active lap and its active sector using only the stored
previousLapTime of the last snapshot (here 80000); the finalized sector
does NOT carry the last snapshot previousSectorTime (111) the claim
names, nor the new snapshot values.  The fourth emitted event of the
three-tick run is that finalized sector. -/
theorem c3_counterexample :
    ∃ ev ∈ (runTracker initialTracker
        [⟨c3s1, 0, "a"⟩, ⟨c3s2, 1, "b"⟩, ⟨c3s3, 2, "c"⟩]).2.drop 3,
      ∃ sec, ev = TrackerEvent.sectorFinalized sec ∧
        sec.sectorTime ≠ c3s2.previousSectorTime ∧
        sec.sectorTime ≠ c3s3.previousSectorTime ∧
        sec.sectorTime = c3s2.previousLapTime := by
  refine ⟨TrackerEvent.sectorFinalized { sectorNumber := 0, sectorTime := 80000, isActive := false },
    by decide, { sectorNumber := 0, sectorTime := 80000, isActive := false }, rfl,
    by decide, by decide, by decide⟩

/-- Claim C3 (amended): at a session rollover where some lap of the old
session has completed, the update finalizes the current session
(isActive false), finalizes its active lap using the previousLapTime of
the last snapshot observed before the new session - written into both the
lap time and the active sector time, per the lap-completion rule of the
source - not the values of the new snapshot, and then starts a fresh
session from the metadata of the new snapshot. -/
theorem c3_session_rollover (t : SessionTracker) (s : AccGameState) (now : Int) (freshId : String)
    (sess : Session) (ls : List Lap) (al : Lap) (ss : List LapSector) (sec : LapSector)
    (hcur : t.currentSession = some sess)
    (hlaps : sess.laps = ls ++ [al]) (hact : al.isActive = true)
    (hsecs : al.lapSectors = ss ++ [sec]) (hsact : sec.isActive = true)
    (hroll : s.completedLaps < sess.completedLaps)
    (hsome : sess.laps.all (fun l => l.isActive) = false) :
    (t.update s now freshId).1.currentSession = some (newSession s now freshId) ∧
    (t.update s now freshId).2 =
      [TrackerEvent.sectorFinalized (completeSector t.lastPreviousLapTime sec),
       TrackerEvent.lapFinalized (completeLap t.lastPreviousLapTime al),
       TrackerEvent.sessionEnded { sess with
         isActive := false
         laps := ls ++ [completeLap t.lastPreviousLapTime al] },
       TrackerEvent.sessionStarted (newSession s now freshId)] ∧
    ({ sess with
       isActive := false
       laps := ls ++ [completeLap t.lastPreviousLapTime al] } : Session).isActive = false ∧
    (completeLap t.lastPreviousLapTime al).lapTime = t.lastPreviousLapTime ∧
    (completeLap t.lastPreviousLapTime al).isActive = false ∧
    (completeSector t.lastPreviousLapTime sec).sectorTime = t.lastPreviousLapTime ∧
    (newSession s now freshId).sessionType = s.sessionType ∧
    (newSession s now freshId).track = s.track ∧
    (newSession s now freshId).carModel = s.carModel ∧
    (newSession s now freshId).numberOfSectors = s.sectorCount ∧
    (newSession s now freshId).isActive = true := by
  have h := update_sessionRollover t s now freshId sess ls al ss sec hcur hlaps hsecs hroll hsome
  rw [h]
  exact ⟨rfl, rfl, rfl, rfl, rfl, rfl, rfl, rfl, rfl, rfl, rfl⟩

/-- Lap 1 of the C3 scenario after its completion at the second tick. -/
def c3FinLap : Lap := completeLap 80000 (startLap 1 c3s1)

/-- Lap 2 of the C3 scenario, still active when the restart is seen. -/
def c3ActLap : Lap := startLap 2 c3s2

/-- Tracker state of the C3 scenario after the first two ticks. -/
def c3Sess : Session :=
  { newSession c3s1 0 "a" with completedLaps := 1, laps := [c3FinLap, c3ActLap] }

/-- Tracker of the C3 scenario: one completed lap, stored last
previousLapTime 80000. -/
def c3Tracker : SessionTracker :=
  { currentSession := some c3Sess, lastPreviousLapTime := 80000 }

/-- Claim C3, witness: the amended session-rollover theorem applied to the
concrete state after two ticks and the restart snapshot. -/
theorem c3_witness :
    c3Tracker.currentSession = some c3Sess ∧
    c3s3.completedLaps < c3Sess.completedLaps ∧
    (c3Sess.laps.all (fun l => l.isActive) = false) ∧
    (SessionTracker.update c3Tracker c3s3 2 "c").2 =
      [TrackerEvent.sectorFinalized (completeSector 80000 (startSector 0)),
       TrackerEvent.lapFinalized (completeLap 80000 c3ActLap),
       TrackerEvent.sessionEnded { c3Sess with
         isActive := false
         laps := [c3FinLap, completeLap 80000 c3ActLap] },
       TrackerEvent.sessionStarted (newSession c3s3 2 "c")] :=
  ⟨rfl, by decide, by decide,
    by
      have h := c3_session_rollover c3Tracker c3s3 2 "c" c3Sess
        [c3FinLap] c3ActLap [] (startSector 0)
        rfl rfl rfl rfl rfl (by decide) (by decide)
      simpa using h.2.1⟩

/-- Snapshot creating a session whose tracked lap counter is already 3
(the tracker attached in the middle of a running session). -/
def c4Snap0 : AccGameState := { baseSnap with completedLaps := 3 }

/-- Session created from c4Snap0: lap counter 3 but no lap entity of the
session ever completed; its single lap is still active. -/
def c4Sess : Session := newSession c4Snap0 7 "old"

/-- Tracker of the C4 scenario. -/
def c4Tracker : SessionTracker :=
  { currentSession := some c4Sess, lastPreviousLapTime := 0 }

/-- Claim C4: if a session rollover fires before any lap of the old
session completed (every lap entity still active), the partial active lap
and its partial sectors are discarded: the ended session is emitted with
an empty lap list, no lap or sector finalize event is emitted, and the
new state holds only the fresh session. -/
theorem c4_discard (t : SessionTracker) (s : AccGameState) (now : Int) (freshId : String)
    (sess : Session)
    (hcur : t.currentSession = some sess)
    (hroll : s.completedLaps < sess.completedLaps)
    (hall : sess.laps.all (fun l => l.isActive) = true) :
    t.update s now freshId =
      ({ currentSession := some (newSession s now freshId)
         lastPreviousLapTime := s.previousLapTime },
       [TrackerEvent.sessionEnded { sess with isActive := false, laps := [] },
        TrackerEvent.sessionStarted (newSession s now freshId)]) ∧
    ({ sess with isActive := false, laps := [] } : Session).laps = [] ∧
    (∀ ev ∈ (t.update s now freshId).2, ∀ lap, ev ≠ TrackerEvent.lapFinalized lap) ∧
    (∀ ev ∈ (t.update s now freshId).2, ∀ sec, ev ≠ TrackerEvent.sectorFinalized sec) := by
  have h := update_sessionRollover_discard t s now freshId sess hcur hroll hall
  refine ⟨h, rfl, ?_, ?_⟩ <;> rw [h] <;> simp

/-- Claim C4, witness: the discard theorem applied to the concrete
mid-session tracker and a restart snapshot. -/
theorem c4_witness :
    c4Tracker.currentSession = some c4Sess ∧
    baseSnap.completedLaps < c4Sess.completedLaps ∧
    (c4Sess.laps.all (fun l => l.isActive) = true) ∧
    (SessionTracker.update c4Tracker baseSnap 9 "new").2 =
      [TrackerEvent.sessionEnded { c4Sess with isActive := false, laps := [] },
       TrackerEvent.sessionStarted (newSession baseSnap 9 "new")] :=
  ⟨rfl, by decide, by decide,
    by
      have h := c4_discard c4Tracker baseSnap 9 "new" c4Sess rfl (by decide) (by decide)
      rw [h.1]⟩

/-- Snapshot advancing to sector index 1 with previousSectorTime 42000,
no lap completed. -/
def c5Snap : AccGameState :=
  { baseSnap with currentSectorIndex := 1, previousSectorTime := 42000 }

/-- Claim C5: when neither a session nor a lap rollover fires and the
sector index of the snapshot differs from the tracked one (the number of
the latest sector), the update finalizes the active sector with
sectorTime = s.previousSectorTime and isActive false, and starts a new
active sector with sectorNumber = s.currentSectorIndex under the same
still-active lap. -/
theorem c5_sector_rollover (t : SessionTracker) (s : AccGameState) (now : Int) (freshId : String)
    (sess : Session) (ls : List Lap) (al : Lap) (ss : List LapSector) (sec : LapSector)
    (hcur : t.currentSession = some sess)
    (hlaps : sess.laps = ls ++ [al]) (hact : al.isActive = true)
    (hsecs : al.lapSectors = ss ++ [sec])
    (hnoSess : ¬ s.completedLaps < sess.completedLaps)
    (hnoLap : ¬ sess.completedLaps < s.completedLaps)
    (hdiff : sec.sectorNumber ≠ s.currentSectorIndex) :
    (t.update s now freshId).1.currentSession =
      some { sess with
        laps := ls ++ [{ al with
          lapSectors := ss ++ [completeSector s.previousSectorTime sec,
                               startSector s.currentSectorIndex] }] } ∧
    (t.update s now freshId).2 =
      [TrackerEvent.sectorFinalized (completeSector s.previousSectorTime sec)] ∧
    (completeSector s.previousSectorTime sec).sectorTime = s.previousSectorTime ∧
    (completeSector s.previousSectorTime sec).isActive = false ∧
    (startSector s.currentSectorIndex).sectorNumber = s.currentSectorIndex ∧
    (startSector s.currentSectorIndex).isActive = true ∧
    ({ al with
       lapSectors := ss ++ [completeSector s.previousSectorTime sec,
                            startSector s.currentSectorIndex] } : Lap).isActive = true := by
  have h := update_sectorRollover t s now freshId sess ls al ss sec hcur hlaps hsecs
    hnoSess hnoLap hdiff
  rw [h]
  exact ⟨rfl, rfl, rfl, rfl, rfl, rfl, hact⟩

/-- Claim C5, witness: the sector-rollover theorem applied to the fresh
session and a snapshot whose sector index moved from 0 to 1. -/
theorem c5_witness :
    c1Tracker.currentSession = some c1Session ∧
    ((startSector 0).sectorNumber ≠ c5Snap.currentSectorIndex) ∧
    (SessionTracker.update c1Tracker c5Snap 12 "x").2 =
      [TrackerEvent.sectorFinalized { sectorNumber := 0, sectorTime := 42000, isActive := false }] :=
  ⟨rfl, by decide,
    by
      have h := c5_sector_rollover c1Tracker c5Snap 12 "x" c1Session
        [] (startLap 1 baseSnap) [] (startSector 0)
        rfl rfl rfl rfl (by decide) (by decide) (by decide)
      simpa using h.2.1⟩

/-! Persistence and query boundaries.  The Firestore adapter and the read
API are external to the core and their code is not part of the repository;
both are modelled from the spec contracts. -/

/-- Modelled from the spec: the persistence boundary stores full Session
objects keyed by Session.id; upsert replaces whatever is stored under that
key by the given session. -/
def upsert (sess : Session) (store : String → Option Session) : String → Option Session :=
  fun k => if k = sess.id then some sess else store k

/-- Claim C8: upsert on the persistence boundary is idempotent - for every
Session value, applying upsert with that identical Session state twice
leaves the stored state the same as applying it once. -/
theorem c8_upsert_idempotent (sess : Session) (store : String → Option Session) :
    upsert sess (upsert sess store) = upsert sess store := by
  funext k
  unfold upsert
  by_cases h : k = sess.id <;> simp [h]

/-- Ordering used by the query boundary: a session is listed before
another when its startTime is at least as large (startTime descending). -/
def moreRecent (a b : Session) : Prop := b.startTime ≤ a.startTime

instance : DecidableRel moreRecent := fun a b => Int.decLe b.startTime a.startTime

instance : IsTotal Session moreRecent :=
  ⟨fun a b => le_total b.startTime a.startTime⟩

instance : IsTrans Session moreRecent :=
  ⟨fun _ _ _ h1 h2 => le_trans h2 h1⟩

/-- Modelled from the spec: the query boundary returns the 20 most
recently started sessions, ordered by startTime descending, the limit
applied on the server side before anything is returned. -/
def listRecent (store : List Session) : List Session :=
  (List.insertionSort moreRecent store).take 20

/-- Claim C9: listRecent returns at most 20 sessions, sorted by startTime
descending, each a stored session carried whole (with its nested laps),
and every stored session left out is no more recent than any returned
one. -/
theorem c9_listRecent (store : List Session) :
    (listRecent store).length ≤ 20 ∧
    List.Sorted moreRecent (listRecent store) ∧
    (∀ x ∈ listRecent store, x ∈ store) ∧
    (∀ x ∈ store, x ∉ listRecent store →
      ∀ y ∈ listRecent store, x.startTime ≤ y.startTime) := by
  refine ⟨?_, ?_, ?_, ?_⟩
  · simpa [listRecent] using List.length_take_le 20 (List.insertionSort moreRecent store)
  · exact (List.sorted_insertionSort moreRecent store).sublist (List.take_sublist _ _)
  · intro x hx
    have hx2 : x ∈ List.insertionSort moreRecent store :=
      (List.take_sublist _ _).mem hx
    exact (List.perm_insertionSort moreRecent store).mem_iff.mp hx2
  · intro x hx hnot y hy
    have hsplit : List.insertionSort moreRecent store =
        (List.insertionSort moreRecent store).take 20 ++
        (List.insertionSort moreRecent store).drop 20 :=
      (List.take_append_drop 20 _).symm
    have hxin : x ∈ List.insertionSort moreRecent store :=
      (List.perm_insertionSort moreRecent store).mem_iff.mpr hx
    have hxdrop : x ∈ (List.insertionSort moreRecent store).drop 20 := by
      rcases (List.mem_append.mp (hsplit ▸ hxin)) with h | h
      · exact absurd h hnot
      · exact h
    have hpair : List.Pairwise moreRecent (List.insertionSort moreRecent store) :=
      List.sorted_insertionSort moreRecent store
    rw [hsplit] at hpair
    have := (List.pairwise_append.mp hpair).2.2 y hy x hxdrop
    exact this

/-- Claim C9, witness: the query theorem applied to a concrete two-session
store. -/
theorem c9_witness :
    (listRecent [newSession baseSnap 5 "a", newSession baseSnap 9 "b"]).length ≤ 20 ∧
    List.Sorted moreRecent (listRecent [newSession baseSnap 5 "a", newSession baseSnap 9 "b"]) :=
  ⟨(c9_listRecent [newSession baseSnap 5 "a", newSession baseSnap 9 "b"]).1,
   (c9_listRecent [newSession baseSnap 5 "a", newSession baseSnap 9 "b"]).2.1⟩

/-! Embedding of the Go function ReadSharedMemoryStruct shown in the post.
The function opens the named mapping, computes
structSize := unsafe.Sizeof(new(T)) - in Go, new(T) has type pointer to T,
so this is the pointer width, not the size of T - passes structSize to
MapViewOfFile, and on success reinterprets the mapped address as a full
value of T.  There is no length check of any kind. -/

/-- A fragment of the Go type grammar, enough to express the telemetry
page structs and pointers to them. -/
inductive GoType where
  | i32 : GoType
  | i64 : GoType
  | f32 : GoType
  | u16 : GoType
  | boolT : GoType
  | array (n : Nat) (elem : GoType) : GoType
  | structT (fields : List GoType) : GoType
  | ptrT (elem : GoType) : GoType

/-- Pointer width of the 64-bit Windows target the post builds for. -/
def goPointerSize : Nat := 8

mutual
/-- Size in bytes of a Go value of the given type (field alignment padding
is ignored; it is irrelevant to the claims, which only compare the pointer
size with struct sizes). -/
def goSizeof : GoType → Nat
  | .i32 => 4
  | .i64 => 8
  | .f32 => 4
  | .u16 => 2
  | .boolT => 1
  | .array n t => n * goSizeof t
  | .structT fs => goSizeofFields fs
  | .ptrT _ => goPointerSize
/-- Total size of a list of struct fields. -/
def goSizeofFields : List GoType → Nat
  | [] => 0
  | t :: ts => goSizeof t + goSizeofFields ts
end

/-- How a concrete Lean type T is laid out in Go: its Go type and the
reinterpretation of raw mapped memory (a byte function and a base address)
as a value of T, the Lean counterpart of the Go expression that
dereferences a pointer cast. -/
structure GoStructRepr (T : Type) where
  repr : GoType
  decode : (Nat → Nat) → Nat → T

/-- The Windows surface the function touches: the result of encoding the
mapping name with syscall.UTF16PtrFromString (none models its error),
OpenFileMappingW as a function of the encoded name pointer (none models a
zero handle), MapViewOfFile as a function of handle and requested byte
count (none models a zero address), the mapped memory bytes, and the
number of bytes the underlying section actually holds.  The last field is
what a length validation would have to consult. -/
structure SharedMemoryEnv where
  utf16Name : Option Nat
  openFileMapping : Nat → Option Nat
  mapViewOfFile : Nat → Nat → Option Nat
  mem : Nat → Nat
  viewSize : Nat

/-- Embedded from the Go source of the post, step by step:
namePtr := syscall.UTF16PtrFromString(name), then
OpenFileMappingW(FILE_MAP_READ, 0, namePtr), then
structSize := unsafe.Sizeof(new(T)) (the size of a POINTER to T), then
MapViewOfFile(hMap, FILE_MAP_READ, 0, 0, structSize), then
value := the dereference of the address cast to a pointer to T.  The
error strings are those of the three Go fmt.Errorf calls. -/
def ReadSharedMemoryStruct {T : Type} (g : GoStructRepr T) (env : SharedMemoryEnv) :
    Except String T :=
  match env.utf16Name with
  | none => .error "failed to encode name"
  | some namePtr =>
    match env.openFileMapping namePtr with
    | none => .error "OpenFileMappingW failed"
    | some hMap =>
      let structSize := goSizeof (GoType.ptrT g.repr)
      match env.mapViewOfFile hMap structSize with
      | none => .error "MapViewOfFile failed"
      | some addr => .ok (g.decode env.mem addr)

/-- Representative layout of the telemetry page the post reads: a struct
of the numeric, character-array and boolean telemetry fields.  Its exact
field list is immaterial to the claims; what matters is that its size
(several hundred bytes) differs from the pointer size. -/
def accPageRepr : GoType :=
  .structT [.i32, .i32, .i32, .i32, .f32, .i32, .i32, .i32, .i32,
            .array 33 .u16, .array 33 .u16, .array 33 .u16,
            .boolT, .boolT, .boolT]

/-- Little-endian read of 4 bytes at the given offset. -/
def readI32 (mem : Nat → Nat) (addr : Nat) : Int :=
  Int.ofNat (mem addr + 256 * mem (addr + 1) + 65536 * mem (addr + 2)
    + 16777216 * mem (addr + 3))

/-- Reinterpretation of the mapped telemetry page as an AccGameState, the
counterpart of the unchecked Go pointer cast: fields are read at their
offsets across the whole extent of the struct, far beyond the pointer-size
byte count that was requested from MapViewOfFile.  Character data is
elided (the string fields of the claims play no role in the size
behaviour). -/
def accPageDecode (mem : Nat → Nat) (addr : Nat) : AccGameState :=
  { status := "", sessionType := "", track := "", carModel := ""
    sectorCount := readI32 mem addr
    numberOfCars := readI32 mem (addr + 4)
    completedLaps := readI32 mem (addr + 8)
    bestLapTime := readI32 mem (addr + 12)
    previousLapTime := readI32 mem (addr + 20)
    currentLapTime := readI32 mem (addr + 24)
    currentSectorIndex := readI32 mem (addr + 28)
    previousSectorTime := readI32 mem (addr + 32)
    isValid := mem (addr + 234) ≠ 0
    isInPitLane := mem (addr + 235) ≠ 0
    isInPit := mem (addr + 236) ≠ 0 }

/-- The Go representation the post instantiates ReadSharedMemoryStruct at. -/
def accPageGo : GoStructRepr AccGameState :=
  { repr := accPageRepr, decode := accPageDecode }

/-- Claim C10: ReadSharedMemoryStruct computes structSize as
unsafe.Sizeof(new(T)), which is the pointer width (8 on the 64-bit
Windows target) for EVERY T, and passes that value - not the size of T -
to MapViewOfFile, while still dereferencing the mapped address as a full
value of T.  The byte count at which mapViewOfFile is consulted is the
pointer size, the result is the full decode, and for the telemetry page
the size of T itself is a different number. -/
theorem c10_structSize_is_pointer_size {T : Type} (g : GoStructRepr T)
    (env : SharedMemoryEnv) (p : Nat) (h : Nat) (a : Nat)
    (hname : env.utf16Name = some p)
    (hopen : env.openFileMapping p = some h)
    (hmap : env.mapViewOfFile h goPointerSize = some a) :
    goSizeof (GoType.ptrT g.repr) = goPointerSize ∧
    ReadSharedMemoryStruct g env = .ok (g.decode env.mem a) ∧
    (∀ f2 : Nat → Nat → Option Nat, f2 h goPointerSize = env.mapViewOfFile h goPointerSize →
      ReadSharedMemoryStruct g { env with mapViewOfFile := f2 } =
        ReadSharedMemoryStruct g env) ∧
    goSizeof accPageGo.repr ≠ goPointerSize := by
  have hptr : goSizeof (GoType.ptrT g.repr) = goPointerSize := rfl
  refine ⟨rfl, ?_, ?_, by decide⟩
  · simp only [ReadSharedMemoryStruct, hname, hopen, hptr, hmap]
  · intro f2 hf2
    simp only [ReadSharedMemoryStruct, hname, hopen, hptr, hf2, hmap]

/-- Environment of the C10 and C2 witnesses: the name encodes, the
mapping opens, a view is returned only when exactly the pointer size is
requested, the memory reads as zero bytes, and the underlying section
holds just 4 bytes - far fewer than the telemetry page needs. -/
def smallEnv : SharedMemoryEnv :=
  { utf16Name := some 500
    openFileMapping := fun _ => some 1
    mapViewOfFile := fun _ n => if n = goPointerSize then some 4096 else none
    mem := fun _ => 0
    viewSize := 4 }

/-- Claim C10, witness: the theorem applied to the telemetry-page
representation and the concrete environment. -/
theorem c10_witness :
    smallEnv.utf16Name = some 500 ∧
    smallEnv.openFileMapping 500 = some 1 ∧
    smallEnv.mapViewOfFile 1 goPointerSize = some 4096 ∧
    goSizeof (GoType.ptrT accPageGo.repr) = goPointerSize ∧
    ReadSharedMemoryStruct accPageGo smallEnv =
      .ok (accPageGo.decode smallEnv.mem 4096) :=
  ⟨rfl, rfl, by decide,
    (c10_structSize_is_pointer_size accPageGo smallEnv 500 1 4096 rfl rfl (by decide)).1,
    (c10_structSize_is_pointer_size accPageGo smallEnv 500 1 4096 rfl rfl (by decide)).2.1⟩

/-- Claim C2, counterexample: with a mapped section of only 4 bytes -
structurally malformed for a telemetry page of several hundred bytes -
ReadSharedMemoryStruct still interprets the buffer as a full AccGameState
and returns it; nothing is surfaced as MalformedSnapshot. -/
theorem c2_counterexample :
    smallEnv.viewSize < goSizeof accPageGo.repr ∧
    ReadSharedMemoryStruct accPageGo smallEnv =
      .ok (accPageDecode smallEnv.mem 4096) ∧
    ReadSharedMemoryStruct accPageGo smallEnv ≠ .error "MalformedSnapshot" := by
  refine ⟨by decide, rfl, ?_⟩
  intro hbad
  rw [show ReadSharedMemoryStruct accPageGo smallEnv =
      .ok (accPageDecode smallEnv.mem 4096) from rfl] at hbad
  exact Except.noConfusion hbad

/-- Claim C2 (amended): ReadSharedMemoryStruct performs no buffer-length
validation at all.  Whatever the actual size of the mapped section, once
the name encodes, OpenFileMappingW and MapViewOfFile succeed, the raw
buffer is reinterpreted as a full value of T; the only errors it can
surface are the name-encoding failure and the two mapping failures, never
MalformedSnapshot. -/
theorem c2_no_validation {T : Type} (g : GoStructRepr T) (env : SharedMemoryEnv) :
    (∀ e, ReadSharedMemoryStruct g env = .error e →
      e = "failed to encode name" ∨
      e = "OpenFileMappingW failed" ∨ e = "MapViewOfFile failed") ∧
    (∀ p h a, env.utf16Name = some p →
      env.openFileMapping p = some h →
      env.mapViewOfFile h goPointerSize = some a →
      ReadSharedMemoryStruct g env = .ok (g.decode env.mem a)) := by
  have hptr : goSizeof (GoType.ptrT g.repr) = goPointerSize := rfl
  constructor
  · intro e he
    cases hname : env.utf16Name with
    | none =>
      simp only [ReadSharedMemoryStruct, hname] at he
      exact Or.inl (Except.error.inj he).symm
    | some namePtr =>
      cases hopen : env.openFileMapping namePtr with
      | none =>
        simp only [ReadSharedMemoryStruct, hname, hopen] at he
        exact Or.inr (Or.inl (Except.error.inj he).symm)
      | some hMap =>
        cases hmap : env.mapViewOfFile hMap goPointerSize with
        | none =>
          simp only [ReadSharedMemoryStruct, hname, hopen, hptr, hmap] at he
          exact Or.inr (Or.inr (Except.error.inj he).symm)
        | some addr =>
          simp only [ReadSharedMemoryStruct, hname, hopen, hptr, hmap] at he
          exact absurd he (by simp)
  · intro p h a hname hopen hmap
    simp only [ReadSharedMemoryStruct, hname, hopen, hptr, hmap]

/-- Claim C2, witness: the no-validation theorem applied to the concrete
undersized environment. -/
theorem c2_witness :
    smallEnv.utf16Name = some 500 ∧
    smallEnv.openFileMapping 500 = some 1 ∧
    smallEnv.mapViewOfFile 1 goPointerSize = some 4096 ∧
    ReadSharedMemoryStruct accPageGo smallEnv =
      .ok (accPageGo.decode smallEnv.mem 4096) :=
  ⟨rfl, rfl, by decide,
    (c2_no_validation accPageGo smallEnv).2 500 1 4096 rfl rfl (by decide)⟩

/-! Structural invariants of the session tree maintained by the tracker. -/

/-- A lap as built by the tracker: its sector list is nonempty and every
sector except the latest is inactive. -/
def LapShape (lap : Lap) : Prop :=
  ∃ ss sec, lap.lapSectors = ss ++ [sec] ∧ ∀ x ∈ ss, x.isActive = false

/-- A current session as built by the tracker: its lap list is nonempty,
every lap except the latest is inactive, the latest lap is active, and
every lap has the lap shape. -/
def SessShape (sess : Session) : Prop :=
  ∃ ls al, sess.laps = ls ++ [al] ∧ (∀ l ∈ ls, l.isActive = false) ∧
    al.isActive = true ∧ ∀ l ∈ sess.laps, LapShape l

/-- Invariant on tracker states: whatever session is current has the
session shape. -/
def TrackShape (t : SessionTracker) : Prop :=
  ∀ sess, t.currentSession = some sess → SessShape sess

theorem lapShape_startLap (n : Int) (s : AccGameState) : LapShape (startLap n s) :=
  ⟨[], startSector 0, rfl, by simp⟩

theorem lapShape_completeLap (time : Int) (lap : Lap) (h : LapShape lap) :
    LapShape (completeLap time lap) := by
  obtain ⟨ss, sec, hs, hin⟩ := h
  exact ⟨ss, completeSector time sec, by simp [completeLap, hs, mapLast_concat], hin⟩

theorem sessShape_newSession (s : AccGameState) (now : Int) (freshId : String) :
    SessShape (newSession s now freshId) := by
  refine ⟨[], startLap 1 s, rfl, by simp, rfl, ?_⟩
  intro l hl
  have : l = startLap 1 s := by simpa [newSession] using hl
  rw [this]
  exact lapShape_startLap 1 s

/-- One tracker step preserves the structural invariant. -/
theorem update_preserves_shape (t : SessionTracker) (s : AccGameState)
    (now : Int) (freshId : String) (h : TrackShape t) :
    TrackShape (t.update s now freshId).1 := by
  cases hcur : t.currentSession with
  | none =>
    rw [update_noSession t s now freshId hcur]
    intro sess2 h2
    have he := Option.some.inj h2
    rw [← he]
    exact sessShape_newSession s now freshId
  | some sess =>
    obtain ⟨ls, al, hlaps, hinact, halact, hall⟩ := h sess hcur
    have halmem : al ∈ sess.laps := by rw [hlaps]; simp
    obtain ⟨ss, sec, hsecs, hssin⟩ := hall al halmem
    by_cases h1 : s.completedLaps < sess.completedLaps
    · by_cases h2 : sess.laps.all (fun l => l.isActive) = true
      · rw [update_sessionRollover_discard t s now freshId sess hcur h1 h2]
        intro sess2 hs2
        have he := Option.some.inj hs2
        rw [← he]
        exact sessShape_newSession s now freshId
      · have h2f : sess.laps.all (fun l => l.isActive) = false := by
          cases hb : sess.laps.all (fun l => l.isActive) with
          | false => rfl
          | true => exact absurd hb h2
        rw [update_sessionRollover t s now freshId sess ls al ss sec hcur hlaps hsecs h1 h2f]
        intro sess2 hs2
        have he := Option.some.inj hs2
        rw [← he]
        exact sessShape_newSession s now freshId
    · by_cases h2 : sess.completedLaps < s.completedLaps
      · rw [update_lapRollover t s now freshId sess ls al ss sec hcur hlaps hsecs h1 h2]
        intro sess2 hs2
        have he := Option.some.inj hs2
        rw [← he]
        refine ⟨ls ++ [completeLap s.previousLapTime al], startLap (s.completedLaps + 1) s,
          by simp, ?_, rfl, ?_⟩
        · intro l hl
          rcases List.mem_append.mp hl with hestl | hfin
          · exact hinact l hestl
          · have : l = completeLap s.previousLapTime al := by simpa using hfin
            rw [this]; rfl
        · intro l hl
          simp only [List.append_assoc, List.mem_append] at hl
          rcases hl with hestl | hrest
          · exact hall l (by rw [hlaps]; exact List.mem_append.mpr (Or.inl hestl))
          · simp only [List.cons_append, List.nil_append, List.mem_cons] at hrest
            rcases hrest with hfin | hnew
            · rw [hfin]
              exact lapShape_completeLap s.previousLapTime al ⟨ss, sec, hsecs, hssin⟩
            · have : l = startLap (s.completedLaps + 1) s := by simpa using hnew
              rw [this]
              exact lapShape_startLap _ s
      · by_cases h3 : sec.sectorNumber = s.currentSectorIndex
        · rw [update_liveUpdate t s now freshId sess ls al ss sec hcur hlaps hsecs h1 h2 h3]
          intro sess2 hs2
          have he := Option.some.inj hs2
          rw [← he]
          refine ⟨ls, { al with
            lapTime := s.currentLapTime
            isValid := al.isValid && s.isValid }, rfl, hinact, halact, ?_⟩
          intro l hl
          rcases List.mem_append.mp hl with hestl | hlast
          · exact hall l (by rw [hlaps]; exact List.mem_append.mpr (Or.inl hestl))
          · have : l = { al with
              lapTime := s.currentLapTime
              isValid := al.isValid && s.isValid } := by simpa using hlast
            rw [this]
            exact ⟨ss, sec, hsecs, hssin⟩
        · rw [update_sectorRollover t s now freshId sess ls al ss sec hcur hlaps hsecs h1 h2 h3]
          intro sess2 hs2
          have he := Option.some.inj hs2
          rw [← he]
          refine ⟨ls, { al with
            lapSectors := ss ++ [completeSector s.previousSectorTime sec,
                                 startSector s.currentSectorIndex] }, rfl, hinact, halact, ?_⟩
          intro l hl
          rcases List.mem_append.mp hl with hestl | hlast
          · exact hall l (by rw [hlaps]; exact List.mem_append.mpr (Or.inl hestl))
          · have : l = { al with
              lapSectors := ss ++ [completeSector s.previousSectorTime sec,
                                   startSector s.currentSectorIndex] } := by simpa using hlast
            rw [this]
            refine ⟨ss ++ [completeSector s.previousSectorTime sec],
              startSector s.currentSectorIndex, by simp, ?_⟩
            intro x hx
            rcases List.mem_append.mp hx with hxss | hxfin
            · exact hssin x hxss
            · have : x = completeSector s.previousSectorTime sec := by simpa using hxfin
              rw [this]; rfl

/-- Replaying any tick sequence preserves the structural invariant. -/
theorem runTracker_preserves_shape (inputs : List TickInput) :
    ∀ t : SessionTracker, TrackShape t → TrackShape (runTracker t inputs).1 := by
  induction inputs with
  | nil => intro t h; exact h
  | cons x xs ih =>
    intro t h
    simp only [runTracker]
    exact ih _ (update_preserves_shape t x.snap x.now x.freshId h)

/-- Sector-number bound for a session created with sector count c: the
session records numberOfSectors = c and every sector number of every lap
stays at most c - 1. -/
def SectorsBounded (c : Int) (sess : Session) : Prop :=
  sess.numberOfSectors = c ∧
  ∀ lap ∈ sess.laps, ∀ x ∈ lap.lapSectors, x.sectorNumber ≤ c - 1

/-- Bound invariant on tracker states. -/
def TrackBounded (c : Int) (t : SessionTracker) : Prop :=
  ∀ sess, t.currentSession = some sess → SectorsBounded c sess

theorem sectorsBounded_newSession (s : AccGameState) (now : Int) (freshId : String)
    (c : Int) (hc : s.sectorCount = c) (hcpos : 0 < c) :
    SectorsBounded c (newSession s now freshId) := by
  refine ⟨hc, ?_⟩
  intro lap hlap x hx
  have hl : lap = startLap 1 s := by simpa [newSession] using hlap
  rw [hl] at hx
  have hx0 : x = startSector 0 := by simpa [startLap] using hx
  rw [hx0]
  show (0 : Int) ≤ c - 1
  omega

/-- One tracker step preserves the sector-number bound, provided the
snapshot carries the same sector count and an index below it. -/
theorem update_preserves_bounded (t : SessionTracker) (s : AccGameState)
    (now : Int) (freshId : String) (c : Int)
    (hshape : TrackShape t) (hb : TrackBounded c t)
    (hc : s.sectorCount = c) (hcpos : 0 < c)
    (hidx : s.currentSectorIndex ≤ c - 1) :
    TrackBounded c (t.update s now freshId).1 := by
  cases hcur : t.currentSession with
  | none =>
    rw [update_noSession t s now freshId hcur]
    intro sess2 h2
    rw [← Option.some.inj h2]
    exact sectorsBounded_newSession s now freshId c hc hcpos
  | some sess =>
    obtain ⟨ls, al, hlaps, hinact, halact, hall⟩ := hshape sess hcur
    have halmem : al ∈ sess.laps := by rw [hlaps]; simp
    obtain ⟨ss, sec, hsecs, hssin⟩ := hall al halmem
    obtain ⟨hns, hbound⟩ := hb sess hcur
    by_cases h1 : s.completedLaps < sess.completedLaps
    · by_cases h2 : sess.laps.all (fun l => l.isActive) = true
      · rw [update_sessionRollover_discard t s now freshId sess hcur h1 h2]
        intro sess2 hs2
        rw [← Option.some.inj hs2]
        exact sectorsBounded_newSession s now freshId c hc hcpos
      · have h2f : sess.laps.all (fun l => l.isActive) = false := by
          cases hbv : sess.laps.all (fun l => l.isActive) with
          | false => rfl
          | true => exact absurd hbv h2
        rw [update_sessionRollover t s now freshId sess ls al ss sec hcur hlaps hsecs h1 h2f]
        intro sess2 hs2
        rw [← Option.some.inj hs2]
        exact sectorsBounded_newSession s now freshId c hc hcpos
    · by_cases h2 : sess.completedLaps < s.completedLaps
      · rw [update_lapRollover t s now freshId sess ls al ss sec hcur hlaps hsecs h1 h2]
        intro sess2 hs2
        rw [← Option.some.inj hs2]
        refine ⟨hns, ?_⟩
        intro lap hlap x hx
        simp only [List.append_assoc, List.cons_append, List.nil_append,
          List.mem_append, List.mem_cons] at hlap
        rcases hlap with hestl | hfin | hnew | hfalse
        · exact hbound lap (by rw [hlaps]; exact List.mem_append.mpr (Or.inl hestl)) x hx
        · rw [hfin] at hx
          simp only [completeLap, hsecs, mapLast_concat, List.mem_append,
            List.mem_singleton] at hx
          rcases hx with hxss | hxsec
          · exact hbound al halmem x (by rw [hsecs]; exact List.mem_append.mpr (Or.inl hxss))
          · rw [hxsec]
            show sec.sectorNumber ≤ c - 1
            exact hbound al halmem sec (by rw [hsecs]; simp)
        · rw [hnew] at hx
          have hx0 : x = startSector 0 := by simpa [startLap] using hx
          rw [hx0]
          show (0 : Int) ≤ c - 1
          omega
        · exact absurd hfalse (by simp)
      · by_cases h3 : sec.sectorNumber = s.currentSectorIndex
        · rw [update_liveUpdate t s now freshId sess ls al ss sec hcur hlaps hsecs h1 h2 h3]
          intro sess2 hs2
          rw [← Option.some.inj hs2]
          refine ⟨hns, ?_⟩
          intro lap hlap x hx
          rcases List.mem_append.mp hlap with hestl | hlast
          · exact hbound lap (by rw [hlaps]; exact List.mem_append.mpr (Or.inl hestl)) x hx
          · have hl : lap = { al with
              lapTime := s.currentLapTime
              isValid := al.isValid && s.isValid } := by simpa using hlast
            rw [hl] at hx
            exact hbound al halmem x hx
        · rw [update_sectorRollover t s now freshId sess ls al ss sec hcur hlaps hsecs h1 h2 h3]
          intro sess2 hs2
          rw [← Option.some.inj hs2]
          refine ⟨hns, ?_⟩
          intro lap hlap x hx
          rcases List.mem_append.mp hlap with hestl | hlast
          · exact hbound lap (by rw [hlaps]; exact List.mem_append.mpr (Or.inl hestl)) x hx
          · have hl : lap = { al with
              lapSectors := ss ++ [completeSector s.previousSectorTime sec,
                                   startSector s.currentSectorIndex] } := by simpa using hlast
            rw [hl] at hx
            simp only [List.mem_append, List.mem_cons, List.mem_singleton,
              List.not_mem_nil, or_false] at hx
            rcases hx with hxss | hxfin | hxnew
            · exact hbound al halmem x (by rw [hsecs]; exact List.mem_append.mpr (Or.inl hxss))
            · rw [hxfin]
              show sec.sectorNumber ≤ c - 1
              exact hbound al halmem sec (by rw [hsecs]; simp)
            · rw [hxnew]
              exact hidx

/-- Replaying any tick sequence whose snapshots share the sector count c
preserves the sector-number bound. -/
theorem runTracker_preserves_bounded (c : Int) (inputs : List TickInput) :
    ∀ t : SessionTracker, TrackShape t → TrackBounded c t →
    (∀ x ∈ inputs, x.snap.sectorCount = c ∧ 0 < c ∧ x.snap.currentSectorIndex ≤ c - 1) →
    TrackBounded c (runTracker t inputs).1 := by
  induction inputs with
  | nil => intro t _ hb _; exact hb
  | cons x xs ih =>
    intro t hshape hb hin
    simp only [runTracker]
    have hx := hin x (by simp)
    exact ih _ (update_preserves_shape t x.snap x.now x.freshId hshape)
      (update_preserves_bounded t x.snap x.now x.freshId c hshape hb hx.1 hx.2.1 hx.2.2)
      (fun y hy => hin y (by simp [hy]))

/-- Tick sequence whose second snapshot reports sector index 5 although
the session was created with sectorCount 3. -/
def c6BadInputs : List TickInput :=
  [⟨baseSnap, 0, "a"⟩, ⟨{ baseSnap with currentSectorIndex := 5 }, 1, "b"⟩]

/-- True when some sector of the current session carries a sector number
above numberOfSectors - 1. -/
def sectorBoundViolated (t : SessionTracker) : Bool :=
  match t.currentSession with
  | none => false
  | some sess =>
    sess.laps.any fun lap => lap.lapSectors.any fun x =>
      decide (sess.numberOfSectors - 1 < x.sectorNumber)

/-- Claim C6, counterexample: a state reachable from the initial state in
two updates violates the sector-number bound the claim asserts for every
reachable state - the tracker copies the snapshot sector index into the
new sector unchecked, so a snapshot with currentSectorIndex 5 creates
sectorNumber 5 in a session with numberOfSectors 3. -/
theorem c6_counterexample :
    sectorBoundViolated (runTracker initialTracker c6BadInputs).1 = true := by
  decide

/-- Claim C6 (amended): in every tracker state reachable from the initial
state, at most one lap of the current session is active and at most one
sector of each lap is active, unconditionally; and provided every snapshot
of the run reports the same positive sector count c with
currentSectorIndex at most c - 1, no sector number exceeds
numberOfSectors - 1. -/
theorem c6_invariants (inputs : List TickInput) (c : Int) :
    (∀ sess, (runTracker initialTracker inputs).1.currentSession = some sess →
       sess.laps.countP (fun l => l.isActive) ≤ 1 ∧
       ∀ lap ∈ sess.laps, lap.lapSectors.countP (fun x => x.isActive) ≤ 1) ∧
    ((∀ x ∈ inputs, x.snap.sectorCount = c ∧ 0 < c ∧ x.snap.currentSectorIndex ≤ c - 1) →
      ∀ sess, (runTracker initialTracker inputs).1.currentSession = some sess →
        ∀ lap ∈ sess.laps, ∀ x ∈ lap.lapSectors,
          x.sectorNumber ≤ sess.numberOfSectors - 1) := by
  have hshape0 : TrackShape initialTracker := fun sess h => Option.noConfusion h
  have hshape := runTracker_preserves_shape inputs initialTracker hshape0
  constructor
  · intro sess hs
    obtain ⟨ls, al, hlaps, hinact, halact, hall⟩ := hshape sess hs
    constructor
    · rw [hlaps, List.countP_append]
      have h0 : ls.countP (fun l => l.isActive) = 0 := by
        rw [List.countP_eq_zero]
        intro a ha
        simp [hinact a ha]
      have h1 : List.countP (fun l => l.isActive) [al] ≤ 1 :=
        List.countP_le_length _
      omega
    · intro lap hlap
      obtain ⟨ss, sec, hsecs, hssin⟩ := hall lap hlap
      rw [hsecs, List.countP_append]
      have h0 : ss.countP (fun x => x.isActive) = 0 := by
        rw [List.countP_eq_zero]
        intro a ha
        simp [hssin a ha]
      have h1 : List.countP (fun x => x.isActive) [sec] ≤ 1 :=
        List.countP_le_length _
      omega
  · intro hin sess hs
    have hb0 : TrackBounded c initialTracker := fun sess h => Option.noConfusion h
    have hb := runTracker_preserves_bounded c inputs initialTracker hshape0 hb0 hin
    obtain ⟨hns, hbound⟩ := hb sess hs
    intro lap hlap x hx
    rw [hns]
    exact hbound lap hlap x hx

/-- Tick sequence of the C6 witness: sector counts all 3, sector indices
within range. -/
def c6GoodInputs : List TickInput :=
  [⟨baseSnap, 0, "a"⟩,
   ⟨{ baseSnap with currentSectorIndex := 1, previousSectorTime := 42000 }, 1, "b"⟩]

/-- Claim C6, witness: the amended invariant theorem applied to the
concrete two-tick run with sector count 3. -/
theorem c6_witness :
    (∀ x ∈ c6GoodInputs,
      x.snap.sectorCount = 3 ∧ (0 : Int) < 3 ∧ x.snap.currentSectorIndex ≤ 3 - 1) ∧
    (∀ sess, (runTracker initialTracker c6GoodInputs).1.currentSession = some sess →
      ∀ lap ∈ sess.laps, ∀ x ∈ lap.lapSectors,
        x.sectorNumber ≤ sess.numberOfSectors - 1) :=
  ⟨by decide, (c6_invariants c6GoodInputs 3).2 (by decide)⟩

/-! Determinism of the tracker modulo assigned identifiers and start
times.  The identifier and wall-clock inputs are the only
non-snapshot inputs of an update; erasing them from sessions must make
two runs over the same snapshots indistinguishable. -/

/-- Erase the externally assigned identifier and start time of a session. -/
def eraseSession (sess : Session) : Session :=
  { sess with id := "", startTime := 0 }

/-- Erase identifiers and start times held in a tracker state. -/
def eraseTracker (t : SessionTracker) : SessionTracker :=
  { t with currentSession := t.currentSession.map eraseSession }

/-- Erase identifiers and start times carried by an event. -/
def eraseEvent : TrackerEvent → TrackerEvent
  | .sessionStarted sess => .sessionStarted (eraseSession sess)
  | .sessionEnded sess => .sessionEnded (eraseSession sess)
  | .liveUpdate sess => .liveUpdate (eraseSession sess)
  | .lapFinalized lap => .lapFinalized lap
  | .sectorFinalized sec => .sectorFinalized sec

/-- One step of two trackers that agree up to erasure, on the same
snapshot but arbitrary clock and identifier inputs, produces states and
events that again agree up to erasure. -/
theorem update_erase_congr (t₁ t₂ : SessionTracker) (s : AccGameState)
    (n₁ n₂ : Int) (i₁ i₂ : String)
    (h : eraseTracker t₁ = eraseTracker t₂) :
    eraseTracker (t₁.update s n₁ i₁).1 = eraseTracker (t₂.update s n₂ i₂).1 ∧
    (t₁.update s n₁ i₁).2.map eraseEvent = (t₂.update s n₂ i₂).2.map eraseEvent := by
  obtain ⟨o₁, lp₁⟩ := t₁
  obtain ⟨o₂, lp₂⟩ := t₂
  simp only [eraseTracker, SessionTracker.mk.injEq] at h
  obtain ⟨ho, hlp⟩ := h
  subst hlp
  cases o₁ with
  | none =>
    cases o₂ with
    | none =>
      constructor <;>
        (simp only [SessionTracker.update]
         try simp [eraseTracker, eraseEvent, eraseSession, newSession])
    | some b => simp at ho
  | some a =>
    cases o₂ with
    | none => simp at ho
    | some b =>
      simp only [Option.map_some', Option.some.injEq] at ho
      obtain ⟨id₁, st₁, ty₁, tr₁, cm₁, ns₁, cl₁, bl₁, ia₁, pl₁, laps₁⟩ := a
      obtain ⟨id₂, st₂, ty₂, tr₂, cm₂, ns₂, cl₂, bl₂, ia₂, pl₂, laps₂⟩ := b
      simp only [eraseSession, Session.mk.injEq, true_and] at ho
      obtain ⟨hty, htr, hcm, hns, hcl, hbl, hia, hpl, hlaps⟩ := ho
      subst hty; subst htr; subst hcm; subst hns; subst hcl
      subst hbl; subst hia; subst hpl; subst hlaps
      by_cases h1 : s.completedLaps < cl₁
      · by_cases h2 : laps₁.all (fun l => l.isActive) = true
        · constructor <;>
            (simp only [SessionTracker.update, if_pos h1, if_pos h2]
             try simp [eraseTracker, eraseEvent, eraseSession, newSession])
        · cases hsp : splitLast laps₁ with
          | none =>
            constructor <;>
              (simp only [SessionTracker.update, if_pos h1, if_neg h2, hsp]
               try simp [eraseTracker, eraseEvent, eraseSession, newSession])
          | some p =>
            obtain ⟨il, al⟩ := p
            cases hsp2 : splitLast al.lapSectors with
            | none =>
              constructor <;>
                (simp only [SessionTracker.update, if_pos h1, if_neg h2, hsp, hsp2]
                 try simp [eraseTracker, eraseEvent, eraseSession, newSession])
            | some q =>
              obtain ⟨isecs, sec⟩ := q
              constructor <;>
                (simp only [SessionTracker.update, if_pos h1, if_neg h2, hsp, hsp2]
                 try simp [eraseTracker, eraseEvent, eraseSession, newSession])
      · by_cases h2 : cl₁ < s.completedLaps
        · cases hsp : splitLast laps₁ with
          | none =>
            constructor <;>
              (simp only [SessionTracker.update, if_neg h1, if_pos h2, hsp]
               try simp [eraseTracker, eraseEvent, eraseSession, newSession])
          | some p =>
            obtain ⟨il, al⟩ := p
            cases hsp2 : splitLast al.lapSectors with
            | none =>
              constructor <;>
                (simp only [SessionTracker.update, if_neg h1, if_pos h2, hsp, hsp2]
                 try simp [eraseTracker, eraseEvent, eraseSession, newSession])
            | some q =>
              obtain ⟨isecs, sec⟩ := q
              constructor <;>
                (simp only [SessionTracker.update, if_neg h1, if_pos h2, hsp, hsp2]
                 try simp [eraseTracker, eraseEvent, eraseSession, newSession])
        · cases hsp : splitLast laps₁ with
          | none =>
            constructor <;>
              (simp only [SessionTracker.update, if_neg h1, if_neg h2, hsp]
               try simp [eraseTracker, eraseEvent, eraseSession, newSession])
          | some p =>
            obtain ⟨il, al⟩ := p
            cases hsp2 : splitLast al.lapSectors with
            | none =>
              constructor <;>
                (simp only [SessionTracker.update, if_neg h1, if_neg h2, hsp, hsp2]
                 try simp [eraseTracker, eraseEvent, eraseSession, newSession])
            | some q =>
              obtain ⟨isecs, sec⟩ := q
              by_cases h3 : sec.sectorNumber ≠ s.currentSectorIndex
              · constructor <;>
                  (simp only [SessionTracker.update, if_neg h1, if_neg h2, hsp, hsp2,
                     if_pos h3]
                   try simp [eraseTracker, eraseEvent, eraseSession, newSession])
              · constructor <;>
                  (simp only [SessionTracker.update, if_neg h1, if_neg h2, hsp, hsp2,
                     if_neg h3]
                   try simp [eraseTracker, eraseEvent, eraseSession, newSession])

/-- Claim C7: two runs of the tracker from starting states that agree up
to erasure of identifiers and start times, over the identical ordered
sequence of snapshots (clocks and fresh identifiers free to differ), emit
event sequences that are identical after erasure and produce final states
whose session trees are identical after erasure - the tracker has no
hidden randomness or wall-clock dependence besides Session.startTime and
the assigned ids. -/
theorem c7_determinism (l₁ : List TickInput) :
    ∀ (t₁ t₂ : SessionTracker) (l₂ : List TickInput),
    eraseTracker t₁ = eraseTracker t₂ →
    l₁.map TickInput.snap = l₂.map TickInput.snap →
    eraseTracker (runTracker t₁ l₁).1 = eraseTracker (runTracker t₂ l₂).1 ∧
    (runTracker t₁ l₁).2.map eraseEvent = (runTracker t₂ l₂).2.map eraseEvent := by
  induction l₁ with
  | nil =>
    intro t₁ t₂ l₂ ht hs
    cases l₂ with
    | nil => exact ⟨ht, rfl⟩
    | cons y ys => exact absurd hs (by simp)
  | cons x xs ih =>
    intro t₁ t₂ l₂ ht hs
    cases l₂ with
    | nil => exact absurd hs (by simp)
    | cons y ys =>
      simp only [List.map_cons, List.cons.injEq] at hs
      obtain ⟨hxy, hrest⟩ := hs
      simp only [runTracker]
      rw [← hxy]
      have hstep := update_erase_congr t₁ t₂ x.snap x.now y.now x.freshId y.freshId ht
      have hrec := ih (t₁.update x.snap x.now x.freshId).1
        (t₂.update x.snap y.now y.freshId).1 ys hstep.1 hrest
      exact ⟨hrec.1, by simp only [List.map_append, hstep.2, hrec.2]⟩

/-- Claim C7, witness: two one-tick runs over the same snapshot with
different clock values and identifiers agree after erasure. -/
theorem c7_witness :
    (([⟨baseSnap, 5, "p"⟩] : List TickInput).map TickInput.snap =
      ([⟨baseSnap, 9, "q"⟩] : List TickInput).map TickInput.snap) ∧
    eraseTracker (runTracker initialTracker [⟨baseSnap, 5, "p"⟩]).1 =
      eraseTracker (runTracker initialTracker [⟨baseSnap, 9, "q"⟩]).1 ∧
    (runTracker initialTracker [⟨baseSnap, 5, "p"⟩]).2.map eraseEvent =
      (runTracker initialTracker [⟨baseSnap, 9, "q"⟩]).2.map eraseEvent :=
  ⟨by decide,
   (c7_determinism [⟨baseSnap, 5, "p"⟩] initialTracker initialTracker
     [⟨baseSnap, 9, "q"⟩] rfl (by decide)).1,
   (c7_determinism [⟨baseSnap, 5, "p"⟩] initialTracker initialTracker
     [⟨baseSnap, 9, "q"⟩] rfl (by decide)).2⟩
